import Mathlib

/-!
Verification of the multi-step tree-data collection flow.

The development shallowly embeds the three wizard steps and the shared
draft store of the repository:

* `TreeDataContext.jsx` — the draft store (`updateTreeData`, `resetTreeData`);
* `TreeDataForm.jsx` — Step 1 (`TreeDataForm.handleNext`);
* the branch-details screen — Step 2 (`BranchDetailsForm.handleNext`);
* the two upload-screen variants — Step 3
  (`UploadScreenParam.handleSave`, `UploadScreenStore.handleSave`).

JavaScript numbers produced by `parseFloat` are modelled as exact scaled
decimals extended with the two infinities (`JSNum`); `NaN` is modelled as
`none` of an `Option`.  String truthiness (`!s` in JS) and array
truthiness (`![]` is `false` in JS) are embedded by dedicated helpers.
-/

/-- A JavaScript number as produced by a successful `parseFloat`:
a finite decimal `num / 10 ^ den`, or one of the two infinities.
`NaN` is represented by `Option.none` at use sites.  The scaled-decimal
representation is exact for every literal `parseFloat` accepts and keeps
the sign tests the code performs decidable by integer arithmetic. -/
inductive JSNum where
  | fin (num : Int) (den : Nat)
  | posInf
  | negInf
deriving Repr, DecidableEq

namespace JSNum

/-- JS unary minus on a non-`NaN` number. -/
def neg : JSNum → JSNum
  | fin n d => fin (-n) d
  | posInf => negInf
  | negInf => posInf

/-- The JS test `x <= 0` on a non-`NaN` number (`10 ^ den > 0`, so the
sign of `num / 10 ^ den` is the sign of `num`). -/
def nonPos : JSNum → Bool
  | fin n _ => decide (n ≤ 0)
  | posInf => false
  | negInf => true

end JSNum

/-- The JS test `isNaN(x) || x <= 0` applied to a `parseFloat` result. -/
def jsNaNOrNonPos : Option JSNum → Bool
  | none => true
  | some v => v.nonPos

/-- Value of a decimal digit string (most significant first). -/
def digitsToNat (ds : List Char) : Nat :=
  ds.foldl (fun a c => 10 * a + (c.toNat - 48)) 0

/-- Scale the finite decimal `n / 10 ^ d` by `10 ^ e` for a signed
exponent `e`, staying in exact scaled-decimal form. -/
def applyExp (n : Int) (d : Nat) (e : Int) : JSNum :=
  if 0 ≤ e then .fin (n * 10 ^ e.toNat) d else .fin n (d + (-e).toNat)

/-- Core of JS `parseFloat` after leading whitespace and an optional sign
have been consumed: the longest valid decimal-literal prefix
(`digits [. digits] [exponent]` or `. digits [exponent]`), or the literal
`Infinity`; `none` when no prefix parses (JS `NaN`). -/
def parseFloatCore (cs : List Char) : Option JSNum :=
  if "Infinity".data.isPrefixOf cs then some .posInf
  else
    let intDs := cs.takeWhile Char.isDigit
    let cs1 := cs.dropWhile Char.isDigit
    let fracState : List Char × List Char :=
      match cs1 with
      | '.' :: t => (t.takeWhile Char.isDigit, t.dropWhile Char.isDigit)
      | _ => ([], cs1)
    let fracDs := fracState.1
    let cs2 := fracState.2
    if intDs = [] ∧ fracDs = [] then none
    else
      let mantNum : Int := digitsToNat intDs * 10 ^ fracDs.length + digitsToNat fracDs
      let e : Int :=
        match cs2 with
        | 'e' :: t => parseExpTail t
        | 'E' :: t => parseExpTail t
        | _ => 0
      some (applyExp mantNum fracDs.length e)
where
  /-- Exponent tail after `e`/`E`: optional sign then digits; a malformed
  exponent is not part of the accepted prefix, contributing `0`. -/
  parseExpTail (t : List Char) : Int :=
    let signed : Int × List Char :=
      match t with
      | '+' :: r => (1, r)
      | '-' :: r => (-1, r)
      | _ => (1, t)
    let eds := signed.2.takeWhile Char.isDigit
    if eds = [] then 0 else signed.1 * digitsToNat eds

/-- JS `parseFloat(s)`: skip leading whitespace, optional sign, then the
longest decimal-literal (or `Infinity`) prefix; `none` models `NaN`. -/
def parseFloat (s : String) : Option JSNum :=
  let cs := s.data.dropWhile Char.isWhitespace
  match cs with
  | '-' :: t => (parseFloatCore t).map JSNum.neg
  | '+' :: t => parseFloatCore t
  | _ => parseFloatCore cs

/-- JS `parseInt(s, 10)`: skip leading whitespace, optional sign, then the
longest decimal-digit prefix; `none` models `NaN`. -/
def parseIntJS (s : String) : Option Int :=
  let cs := s.data.dropWhile Char.isWhitespace
  let signed : Int × List Char :=
    match cs with
    | '-' :: t => (-1, t)
    | '+' :: t => (1, t)
    | _ => (1, cs)
  let ds := signed.2.takeWhile Char.isDigit
  if ds = [] then none else some (signed.1 * digitsToNat ds)

/-- JS falsiness of an optional string value: `undefined`/`null` and the
empty string are falsy, every other string is truthy. -/
def jsOptStrFalsy : Option String → Bool
  | none => true
  | some s => s = ""

/-- JS truthiness of an optional array value: `undefined`/`null` is falsy;
an array is truthy even when empty. -/
def jsArrTruthy {α : Type} : Option (List α) → Bool
  | none => false
  | some _ => true

/-- JS `Array.isArray` on an optional array value. -/
def jsIsArray {α : Type} : Option (List α) → Bool
  | none => false
  | some _ => true

/-- JS `String.prototype.trim()`: strip whitespace from both ends. -/
def jsTrim (s : String) : String :=
  ⟨((s.data.dropWhile Char.isWhitespace).reverse.dropWhile Char.isWhitespace).reverse⟩

/-! ## The draft store (`TreeDataContext.jsx`) -/

/-- One validated stem entry `{height, diameter}` as stored by Step 2. -/
structure StemEntry where
  height : JSNum
  diameter : JSNum
deriving Repr, DecidableEq

/-- The shared draft record held by the tree-data context. -/
structure TreeData where
  treeId : String
  numBranches : Int
  stemData : List StemEntry
  studentName : String
  studentRollNo : String
  studentGroup : String
  isAdmin : Bool
deriving Repr, DecidableEq

/-- The default-empty shape the provider starts from and `resetTreeData`
restores. -/
def initialTreeData : TreeData :=
  { treeId := ""
    numBranches := 0
    stemData := []
    studentName := ""
    studentRollNo := ""
    studentGroup := ""
    isAdmin := false }

/-- A partial update `newData`: the keys present in the object literal
passed to `updateTreeData`. -/
structure TreeDataPartial where
  treeId : Option String := none
  numBranches : Option Int := none
  stemData : Option (List StemEntry) := none
  studentName : Option String := none
  studentRollNo : Option String := none
  studentGroup : Option String := none
  isAdmin : Option Bool := none
deriving Repr, DecidableEq

/-- The function `updateTreeData(newData)`: the spread `{...prevData, ...newData}` —
every key named by the partial takes the partial's value, every other key
keeps its previous value. -/
def updateTreeData (s : TreeData) (p : TreeDataPartial) : TreeData :=
  { treeId := p.treeId.getD s.treeId
    numBranches := p.numBranches.getD s.numBranches
    stemData := p.stemData.getD s.stemData
    studentName := p.studentName.getD s.studentName
    studentRollNo := p.studentRollNo.getD s.studentRollNo
    studentGroup := p.studentGroup.getD s.studentGroup
    isAdmin := p.isAdmin.getD s.isAdmin }

/-- The function `resetTreeData()`: replaces the state with the default-empty shape. -/
def resetTreeData (_ : TreeData) : TreeData :=
  initialTreeData

/-! ## Step 1 (`TreeDataForm.jsx`, `handleNext`) -/

namespace TreeDataForm

/-- The parameter bag Step 1 passes to the branch-details screen. -/
structure NavPayload where
  treeId : String
  branches : Int
  studentName : String
  studentRollNo : String
  studentGroup : String
deriving Repr, DecidableEq

/-- Observable outcome of one Step 1 `handleNext` press: the alerts shown
(title, message) in order, the draft store afterwards, and the navigation
payload when progression happened. -/
structure Outcome where
  alerts : List (String × String)
  storeAfter : TreeData
  nav : Option NavPayload
deriving Repr, DecidableEq

/-- The `handleNext` of `TreeDataForm`: reject when either raw field is empty,
then require `parseInt(numBranches, 10)` to be a number `≥ 1`; on success
merge `{treeId, numBranches}` with the carried student fields into the
draft store and navigate with the same values. -/
def handleNext (treeId numBranches : String) (store : TreeData) : Outcome :=
  if treeId = "" ∨ numBranches = "" then
    { alerts := [("Error", "All fields are required!")]
      storeAfter := store
      nav := none }
  else
    match parseIntJS numBranches with
    | none =>
      { alerts := [("Error", "Please enter a valid number of branches (must be at least 1)")]
        storeAfter := store
        nav := none }
    | some n =>
      if n < 1 then
        { alerts := [("Error", "Please enter a valid number of branches (must be at least 1)")]
          storeAfter := store
          nav := none }
      else
        { alerts := []
          storeAfter := updateTreeData store
            { treeId := some treeId
              numBranches := some n
              studentName := some store.studentName
              studentRollNo := some store.studentRollNo
              studentGroup := some store.studentGroup }
          nav := some
            { treeId := treeId
              branches := n
              studentName := store.studentName
              studentRollNo := store.studentRollNo
              studentGroup := store.studentGroup } }

end TreeDataForm

/-! ## Step 2 (branch-details screen, `handleNext`) -/

namespace BranchDetailsForm

/-- The parameter bag Step 2 passes to the upload screen on success:
`{treeId, branches, stemData, studentName, studentRollNo, studentGroup}`.
It carries no `height`, no `mainBranchDiameter` and no `branchDiameters`
field. -/
structure NavPayload where
  treeId : String
  branches : Int
  stemData : List StemEntry
  studentName : String
  studentRollNo : String
  studentGroup : String
deriving Repr, DecidableEq

/-- Observable outcome of one Step 2 `handleNext` press. -/
structure Outcome where
  alerts : List (String × String)
  storeAfter : TreeData
  nav : Option NavPayload
deriving Repr, DecidableEq

/-- The per-entry body of the `stemData.map` callback: the four checks in
source order — height non-blank, diameter non-blank, height parses `> 0`,
diameter parses `> 0` — where the first failure yields that entry's alert
message (`Except.error`) and `null`; success yields the numeric pair. -/
def validateStem (index : Nat) (stem : String × String) : Except String StemEntry :=
  let height := parseFloat stem.1
  let diameter := parseFloat stem.2
  if stem.1 = "" ∨ jsTrim stem.1 = "" then
    .error ("Please enter height for Primary Stem " ++ toString (index + 1))
  else if stem.2 = "" ∨ jsTrim stem.2 = "" then
    .error ("Please enter diameter for Primary Stem " ++ toString (index + 1))
  else if jsNaNOrNonPos height then
    .error ("Please enter a valid height for Primary Stem " ++ toString (index + 1))
  else if jsNaNOrNonPos diameter then
    .error ("Please enter a valid diameter for Primary Stem " ++ toString (index + 1))
  else
    .ok { height := height.getD (.fin 0 0), diameter := diameter.getD (.fin 0 0) }

/-- Whether a map-callback result is a validated entry (not `null`). -/
def stemOk (r : Except String StemEntry) : Bool :=
  match r with
  | .ok _ => true
  | .error _ => false

/-- The `handleNext` of the branch-details screen: after the
`!treeId || !branches` guard, `stemData.map` runs `validateStem` over every
entry (alerting on each failure, JS `map` does not stop early); the store is
merged and navigation happens only when no entry mapped to `null`. -/
def handleNext (treeId : String) (branches : Int)
    (stemData : List (String × String))
    (studentName studentRollNo studentGroup : String)
    (store : TreeData) : Outcome :=
  if treeId = "" ∨ branches = 0 then
    { alerts := [("Error", "Please enter all required details before proceeding.")]
      storeAfter := store
      nav := none }
  else
    let results := stemData.enum.map (fun p => validateStem p.1 p.2)
    let alerts := results.filterMap (fun r =>
      match r with
      | .error m => some ("Error", m)
      | .ok _ => none)
    if results.all stemOk then
      let validatedData := results.filterMap (fun r =>
        match r with
        | .ok e => some e
        | .error _ => none)
      { alerts := alerts
        storeAfter := updateTreeData store
          { treeId := some treeId
            numBranches := some branches
            stemData := some validatedData
            studentName := some studentName
            studentRollNo := some studentRollNo
            studentGroup := some studentGroup }
        nav := some
          { treeId := treeId
            branches := branches
            stemData := validatedData
            studentName := studentName
            studentRollNo := studentRollNo
            studentGroup := studentGroup } }
    else
      { alerts := alerts
        storeAfter := store
        nav := none }

end BranchDetailsForm

/-- Decidable equality for service outcomes (`Except` values). -/
instance {ε α : Type} [DecidableEq ε] [DecidableEq α] : DecidableEq (Except ε α) :=
  fun a b =>
    match a, b with
    | .ok x, .ok y =>
      if h : x = y then isTrue (by rw [h])
      else isFalse (by intro c; injection c; contradiction)
    | .error x, .error y =>
      if h : x = y then isTrue (by rw [h])
      else isFalse (by intro c; injection c; contradiction)
    | .ok _, .error _ => isFalse (by intro c; cases c)
    | .error _, .ok _ => isFalse (by intro c; cases c)

/-! ## Step 3, parameter-based variant (`UploadScreen`, first file) -/

namespace UploadScreenParam

/-- Inputs of one press of Save in the parameter-based upload screen:
the captured image, the busy flag, the route parameters the component
destructures (each `none` when the navigation payload lacks the field),
the context store it reads student fields from, the authenticated email,
and the outcome the external `saveTreeData` call would have. -/
structure Input where
  image : Option String
  loading0 : Bool
  treeId : Option String
  height : Option String
  branches : Option Int
  branchDiameters : Option (List String)
  mainBranchDiameter : Option String
  store : TreeData
  authEmail : Option String
  svc : Except String Unit
deriving Repr, DecidableEq

/-- The record this variant assembles and hands to `saveTreeData`. -/
structure Record where
  treeId : String
  height : Option JSNum
  numBranches : Option Int
  branchDiameters : List (Option JSNum)
  mainBranchDiameter : Option JSNum
  studentName : String
  studentRollNo : String
  studentGroup : String
  userEmail : String
deriving Repr, DecidableEq

/-- Observable outcome of one press of Save in the parameter-based
variant. -/
structure Outcome where
  alerts : List (String × String)
  svcCalled : Bool
  saved : Option Record
  store1 : TreeData
  image1 : Option String
  loading1 : Bool
  successShown : Bool
deriving Repr, DecidableEq

/-- The `handleSave` of the parameter-based upload screen: no-image guard
before the `try`; inside it, reject unless `height` and
`mainBranchDiameter` are truthy and parse, `branchDiameters` is a
non-empty array, and each element parses; then call `saveTreeData`,
reset the context on success, surface `error.message` on failure; the
`finally` clears the busy flag on every path that entered the `try`. -/
def handleSave (inp : Input) : Outcome :=
  if jsOptStrFalsy inp.image then
    { alerts := [("Error", "Please upload an image before saving.")]
      svcCalled := false
      saved := none
      store1 := inp.store
      image1 := inp.image
      loading1 := inp.loading0
      successShown := false }
  else if jsOptStrFalsy inp.height ∨ (parseFloat (inp.height.getD "")).isNone then
    { alerts := [("Error", "Please enter a valid height")]
      svcCalled := false
      saved := none
      store1 := inp.store
      image1 := inp.image
      loading1 := false
      successShown := false }
  else if jsOptStrFalsy inp.mainBranchDiameter ∨
      (parseFloat (inp.mainBranchDiameter.getD "")).isNone then
    { alerts := [("Error", "Please enter a valid main branch diameter")]
      svcCalled := false
      saved := none
      store1 := inp.store
      image1 := inp.image
      loading1 := false
      successShown := false }
  else if ¬ jsArrTruthy inp.branchDiameters ∨ ¬ jsIsArray inp.branchDiameters ∨
      (inp.branchDiameters.getD []).length = 0 then
    { alerts := [("Error", "Please enter valid branch diameters")]
      svcCalled := false
      saved := none
      store1 := inp.store
      image1 := inp.image
      loading1 := false
      successShown := false }
  else
    match (inp.branchDiameters.getD []).findIdx? (fun d => (parseFloat d).isNone) with
    | some i =>
      { alerts := [("Error", "Please enter a valid diameter for branch " ++ toString (i + 1))]
        svcCalled := false
        saved := none
        store1 := inp.store
        image1 := inp.image
        loading1 := false
        successShown := false }
    | none =>
      let record : Record :=
        { treeId := inp.treeId.getD ""
          height := parseFloat (inp.height.getD "")
          numBranches := (inp.branches.map toString).bind parseIntJS
          branchDiameters := (inp.branchDiameters.getD []).map parseFloat
          mainBranchDiameter := parseFloat (inp.mainBranchDiameter.getD "")
          studentName := inp.store.studentName
          studentRollNo := inp.store.studentRollNo
          studentGroup := inp.store.studentGroup
          userEmail := inp.authEmail.getD "" }
      match inp.svc with
      | .ok _ =>
        -- `const context = useTreeData()` is in scope here, so the guarded
        -- `context.resetTreeData()` runs before the success alert
        { alerts := [("Success", "Tree data has been saved!")]
          svcCalled := true
          saved := some record
          store1 := resetTreeData inp.store
          image1 := inp.image
          loading1 := false
          successShown := true }
      | .error e =>
        { alerts := [("Error", if e = "" then "Failed to save data" else e)]
          svcCalled := true
          saved := some record
          store1 := inp.store
          image1 := inp.image
          loading1 := false
          successShown := false }

/-- The parameter-based upload screen reached through the Step 2
navigation payload: `height`, `branchDiameters` and `mainBranchDiameter`
are absent from that payload, so the component destructures them as
`undefined`. -/
def inputOfNav (pl : BranchDetailsForm.NavPayload) (image : Option String)
    (loading0 : Bool) (store : TreeData) (authEmail : Option String)
    (svc : Except String Unit) : Input :=
  { image := image
    loading0 := loading0
    treeId := some pl.treeId
    height := none
    branches := some pl.branches
    branchDiameters := none
    mainBranchDiameter := none
    store := store
    authEmail := authEmail
    svc := svc }

end UploadScreenParam

/-! ## Step 3, store-based variant (`UploadScreen`, second file) -/

namespace UploadScreenStore

/-- The student details read from local storage
(`studentDetails_<email>`), already JSON-parsed. -/
structure StudentDetails where
  studentName : String
  studentRollNo : String
  studentGroup : String
deriving Repr, DecidableEq

/-- The record this variant assembles and hands to `saveTreeData`. -/
structure Record where
  treeId : String
  numBranches : Int
  stemData : List StemEntry
  studentName : String
  studentRollNo : String
  studentGroup : String
  userEmail : String
deriving Repr, DecidableEq

/-- Observable outcome of one press of Save in the store-based variant,
up to and including the handler's completion (before the success alert's
OK button is pressed). -/
structure Outcome where
  alerts : List (String × String)
  svcCalled : Bool
  saved : Option Record
  store1 : TreeData
  image1 : Option String
  loading1 : Bool
  navTo : Option String
  successShown : Bool
deriving Repr, DecidableEq

/-- The `handleSave` of the store-based upload screen: everything runs inside
the `try`, whose `finally` clears the busy flag; the checks in source
order are the no-image guard, the locally-stored student details, and the
`!treeData || !treeData.stemData || !Array.isArray(treeData.stemData)`
test.  The context always supplies `treeData` with `stemData` an array,
and in JS an array is truthy even when empty, so that test is transcribed
on the wrapped (`some`) values and in particular lets an empty `stemData`
through.  The draft store is not touched by the handler itself — the
reset is deferred to the success alert's OK button. -/
def handleSave (image : Option String) (loading0 : Bool) (store : TreeData)
    (storedDetails : Option StudentDetails) (email : String)
    (svc : Except String Unit) : Outcome :=
  if jsOptStrFalsy image then
    { alerts := [("Error", "Please upload an image before saving.")]
      svcCalled := false
      saved := none
      store1 := store
      image1 := image
      loading1 := false
      navTo := none
      successShown := false }
  else
    match storedDetails with
    | none =>
      { alerts := [("Error", "Student details not found. Please complete student details first.")]
        svcCalled := false
        saved := none
        store1 := store
        image1 := image
        loading1 := false
        navTo := some "StudentDetails"
        successShown := false }
    | some sd =>
      let treeDataVal : Option TreeData := some store
      let stemVal : Option (List StemEntry) := some store.stemData
      if treeDataVal.isNone ∨ ¬ jsArrTruthy stemVal ∨ ¬ jsIsArray stemVal then
        { alerts := [("Error", "Invalid or missing stem data. Please go back and enter the measurements again.")]
          svcCalled := false
          saved := none
          store1 := store
          image1 := image
          loading1 := false
          navTo := none
          successShown := false }
      else
        let dataToSave : Record :=
          { treeId := store.treeId
            numBranches := store.numBranches
            stemData := store.stemData
            studentName := sd.studentName
            studentRollNo := sd.studentRollNo
            studentGroup := sd.studentGroup
            userEmail := email }
        match svc with
        | .ok _ =>
          { alerts := [("Success", "Tree data has been saved!")]
            svcCalled := true
            saved := some dataToSave
            store1 := store
            image1 := image
            loading1 := false
            navTo := none
            successShown := true }
        | .error e =>
          { alerts := [("Error", if e = "" then "Failed to save data" else e)]
            svcCalled := true
            saved := some dataToSave
            store1 := store
            image1 := image
            loading1 := false
            navTo := none
            successShown := false }

/-- The success alert's OK handler in the store-based variant runs
`if (context?.resetTreeData) { context.resetTreeData(); }` followed by
`navigation.reset(...)`, but this component never declares `context`
(it destructures `const { treeData } = useTreeData()`), so evaluating the
identifier raises a `ReferenceError` before anything executes: the
optional-chaining operator does not guard an undeclared variable. -/
def okPress (store : TreeData) : Except String TreeData :=
  .error "ReferenceError: context is not defined"

/-- The draft store after the OK press: the thrown `ReferenceError`
escapes the already-completed handler, so the store keeps its value and
`resetTreeData` never runs. -/
def storeAfterOkPress (store : TreeData) : TreeData :=
  match okPress store with
  | .ok s => s
  | .error _ => store

end UploadScreenStore

/-- Spec-side description of Step 2 per-entry validation (for the amended
claim C4): the four checks run in the order height-present,
diameter-present, height parses `> 0`, diameter parses `> 0`, and the
first failing check determines the entry's single error message, which
names the entry's 1-based index. -/
def stemEntryFirstFailure (index : Nat) (height diameter : String) : Option String :=
  if height = "" ∨ jsTrim height = "" then
    some ("Please enter height for Primary Stem " ++ toString (index + 1))
  else if diameter = "" ∨ jsTrim diameter = "" then
    some ("Please enter diameter for Primary Stem " ++ toString (index + 1))
  else if jsNaNOrNonPos (parseFloat height) then
    some ("Please enter a valid height for Primary Stem " ++ toString (index + 1))
  else if jsNaNOrNonPos (parseFloat diameter) then
    some ("Please enter a valid diameter for Primary Stem " ++ toString (index + 1))
  else
    none

/-! ## Claims -/

/-- Claim C9. Draft store contract: for every current state and every partial
record, `updateTreeData` gives each key named in the partial the partial's
value and leaves every key not named in the partial unchanged (shallow
merge), and `resetTreeData` yields the default-empty shape regardless of
the prior state. -/
theorem C9_draft_store_contract :
    (∀ (s : TreeData) (p : TreeDataPartial),
      (∀ v, p.treeId = some v → (updateTreeData s p).treeId = v) ∧
      (p.treeId = none → (updateTreeData s p).treeId = s.treeId) ∧
      (∀ v, p.numBranches = some v → (updateTreeData s p).numBranches = v) ∧
      (p.numBranches = none → (updateTreeData s p).numBranches = s.numBranches) ∧
      (∀ v, p.stemData = some v → (updateTreeData s p).stemData = v) ∧
      (p.stemData = none → (updateTreeData s p).stemData = s.stemData) ∧
      (∀ v, p.studentName = some v → (updateTreeData s p).studentName = v) ∧
      (p.studentName = none → (updateTreeData s p).studentName = s.studentName) ∧
      (∀ v, p.studentRollNo = some v → (updateTreeData s p).studentRollNo = v) ∧
      (p.studentRollNo = none → (updateTreeData s p).studentRollNo = s.studentRollNo) ∧
      (∀ v, p.studentGroup = some v → (updateTreeData s p).studentGroup = v) ∧
      (p.studentGroup = none → (updateTreeData s p).studentGroup = s.studentGroup) ∧
      (∀ v, p.isAdmin = some v → (updateTreeData s p).isAdmin = v) ∧
      (p.isAdmin = none → (updateTreeData s p).isAdmin = s.isAdmin)) ∧
    (∀ s : TreeData, resetTreeData s = initialTreeData) := by
  refine ⟨fun s p => ?_, fun s => rfl⟩
  refine ⟨?_, ?_, ?_, ?_, ?_, ?_, ?_, ?_, ?_, ?_, ?_, ?_, ?_, ?_⟩ <;>
    first
      | (intro v h; simp [updateTreeData, h])
      | (intro h; simp [updateTreeData, h])

/-- Witness for C9 at a concrete state and partial: the named key takes the
new value, an unnamed key keeps the old one, and reset restores defaults. -/
theorem C9_draft_store_contract_witness :
    (updateTreeData
        { initialTreeData with studentName := "Alice" }
        { treeId := some "T7" }).treeId = "T7" ∧
    (updateTreeData
        { initialTreeData with studentName := "Alice" }
        { treeId := some "T7" }).studentName = "Alice" ∧
    resetTreeData { initialTreeData with studentName := "Alice" } = initialTreeData :=
  ⟨(C9_draft_store_contract.1 { initialTreeData with studentName := "Alice" }
      { treeId := some "T7" }).1 "T7" rfl,
   ((C9_draft_store_contract.1 { initialTreeData with studentName := "Alice" }
      { treeId := some "T7" }).2.2.2.2.2.2.2.1 rfl),
   C9_draft_store_contract.2 { initialTreeData with studentName := "Alice" }⟩

/-- Claim C5. Step 1 progression: an empty tree ID or branch-count text
yields the generic all-fields-required error; otherwise a branch-count
text that does not `parseInt` to an integer `≥ 1` yields the
invalid-branch-count error; otherwise the step succeeds, merging
`{treeId, numBranches}` with carried student fields into the draft store
and navigating.  First failure wins; every parsed integer `≥ 1` is
accepted. -/
theorem C5_step1_progression :
    ∀ (tid nb : String) (store : TreeData),
      ((tid = "" ∨ nb = "") →
        TreeDataForm.handleNext tid nb store =
          { alerts := [("Error", "All fields are required!")]
            storeAfter := store
            nav := none }) ∧
      (tid ≠ "" → nb ≠ "" →
        (parseIntJS nb = none ∨ ∃ n, parseIntJS nb = some n ∧ n < 1) →
        TreeDataForm.handleNext tid nb store =
          { alerts := [("Error", "Please enter a valid number of branches (must be at least 1)")]
            storeAfter := store
            nav := none }) ∧
      (∀ n : Int, tid ≠ "" → nb ≠ "" → parseIntJS nb = some n → 1 ≤ n →
        TreeDataForm.handleNext tid nb store =
          { alerts := []
            storeAfter := { store with treeId := tid, numBranches := n }
            nav := some
              { treeId := tid
                branches := n
                studentName := store.studentName
                studentRollNo := store.studentRollNo
                studentGroup := store.studentGroup } }) := by
  intro tid nb store
  refine ⟨fun h => ?_, fun h1 h2 h3 => ?_, fun n h1 h2 hp hn => ?_⟩
  · simp only [TreeDataForm.handleNext, if_pos h]
  · rcases h3 with hnone | ⟨n, hsome, hlt⟩
    · simp only [TreeDataForm.handleNext, hnone]
      rw [if_neg (by simp [h1, h2])]
    · simp only [TreeDataForm.handleNext, hsome]
      rw [if_neg (by simp [h1, h2])]
      simp only [if_pos hlt]
  · simp only [TreeDataForm.handleNext, hp]
    rw [if_neg (by simp [h1, h2]), if_neg (by omega)]
    simp [updateTreeData]

/-- Witness for C5 at concrete inputs: empty fields are rejected, `"0"`
is rejected, `"3"` is accepted and merged. -/
theorem C5_step1_progression_witness :
    TreeDataForm.handleNext "" "" initialTreeData =
      { alerts := [("Error", "All fields are required!")]
        storeAfter := initialTreeData
        nav := none } ∧
    TreeDataForm.handleNext "T100" "0" initialTreeData =
      { alerts := [("Error", "Please enter a valid number of branches (must be at least 1)")]
        storeAfter := initialTreeData
        nav := none } ∧
    TreeDataForm.handleNext "T100" "3" initialTreeData =
      { alerts := []
        storeAfter := { initialTreeData with treeId := "T100", numBranches := 3 }
        nav := some
          { treeId := "T100"
            branches := 3
            studentName := ""
            studentRollNo := ""
            studentGroup := "" } } :=
  ⟨(C5_step1_progression "" "" initialTreeData).1 (Or.inl rfl),
   (C5_step1_progression "T100" "0" initialTreeData).2.1
      (by decide) (by decide) (Or.inr ⟨0, by decide, by decide⟩),
   (C5_step1_progression "T100" "3" initialTreeData).2.2 3
      (by decide) (by decide) (by decide) (by decide)⟩

/-- The error side of the Step 2 map callback agrees with the spec-side
first-failure description `stemEntryFirstFailure`. -/
theorem validateStem_error_eq (i : Nat) (s : String × String) :
    (match BranchDetailsForm.validateStem i s with
      | .error m => some m
      | .ok _ => none) = stemEntryFirstFailure i s.1 s.2 := by
  rcases s with ⟨h, d⟩
  unfold BranchDetailsForm.validateStem stemEntryFirstFailure
  dsimp only
  split_ifs <;> rfl

/-- An entry maps to a validated value exactly when the spec-side
first-failure description reports no error. -/
theorem stemOk_iff_noFailure (i : Nat) (s : String × String) :
    BranchDetailsForm.stemOk (BranchDetailsForm.validateStem i s) = true ↔
    stemEntryFirstFailure i s.1 s.2 = none := by
  rw [← validateStem_error_eq i s]
  cases BranchDetailsForm.validateStem i s <;> simp [BranchDetailsForm.stemOk]

/-- Extracting the validated entries of an all-passing result list keeps
its length. -/
theorem filterMap_ok_length (rs : List (Except String StemEntry))
    (h : ∀ r ∈ rs, BranchDetailsForm.stemOk r = true) :
    (rs.filterMap (fun r =>
      match r with
      | .ok e => some e
      | .error _ => none)).length = rs.length := by
  induction rs with
  | nil => simp
  | cons r rs ih =>
    cases r with
    | error m =>
      have := h (.error m) (List.mem_cons_self _ _)
      simp [BranchDetailsForm.stemOk] at this
    | ok e =>
      simp only [List.filterMap_cons, List.length_cons]
      rw [ih (fun r hr => h r (List.mem_cons_of_mem _ hr))]

/-- Claim C3. Step 2 whole-batch validation: with the guard fields present,
if any stem entry fails validation then the draft store is left unchanged
and no navigation happens; if every entry passes all four checks, the full
numeric array (one validated entry per input entry) is merged into the
store together with the carried fields. -/
theorem C3_whole_batch_validation :
    ∀ (tid : String) (br : Int) (stems : List (String × String))
      (sn sr sg : String) (store : TreeData),
      tid ≠ "" → br ≠ 0 →
      ((∃ p ∈ stems.enum,
          BranchDetailsForm.stemOk (BranchDetailsForm.validateStem p.1 p.2) = false) →
        (BranchDetailsForm.handleNext tid br stems sn sr sg store).storeAfter = store ∧
        (BranchDetailsForm.handleNext tid br stems sn sr sg store).nav = none) ∧
      ((∀ p ∈ stems.enum,
          BranchDetailsForm.stemOk (BranchDetailsForm.validateStem p.1 p.2) = true) →
        (BranchDetailsForm.handleNext tid br stems sn sr sg store).storeAfter =
          { store with
              treeId := tid
              numBranches := br
              stemData :=
                (stems.enum.map (fun p => BranchDetailsForm.validateStem p.1 p.2)).filterMap
                  (fun r =>
                    match r with
                    | .ok e => some e
                    | .error _ => none)
              studentName := sn
              studentRollNo := sr
              studentGroup := sg } ∧
        (BranchDetailsForm.handleNext tid br stems sn sr sg store).storeAfter.stemData.length =
          stems.length) := by
  intro tid br stems sn sr sg store htid hbr
  have hguard : ¬ (tid = "" ∨ br = 0) := by simp [htid, hbr]
  constructor
  · rintro ⟨p, hp, hfail⟩
    have hnotall : ¬ ((stems.enum.map
        (fun p => BranchDetailsForm.validateStem p.1 p.2)).all BranchDetailsForm.stemOk = true) := by
      rw [List.all_eq_true]
      intro hall
      have := hall (BranchDetailsForm.validateStem p.1 p.2)
        (List.mem_map_of_mem _ hp)
      rw [hfail] at this
      cases this
    have hall : (stems.enum.map
        (fun p => BranchDetailsForm.validateStem p.1 p.2)).all BranchDetailsForm.stemOk = false := by
      rcases Bool.eq_false_or_eq_true ((stems.enum.map
        (fun p => BranchDetailsForm.validateStem p.1 p.2)).all BranchDetailsForm.stemOk) with ht | hf
      · exact absurd ht hnotall
      · exact hf
    unfold BranchDetailsForm.handleNext
    rw [if_neg hguard]
    simp only [hall]
    exact ⟨rfl, rfl⟩
  · intro hpass
    have hall : (stems.enum.map
        (fun p => BranchDetailsForm.validateStem p.1 p.2)).all BranchDetailsForm.stemOk = true := by
      rw [List.all_eq_true]
      intro r hr
      rw [List.mem_map] at hr
      rcases hr with ⟨p, hp, rfl⟩
      exact hpass p hp
    unfold BranchDetailsForm.handleNext
    rw [if_neg hguard]
    simp only [hall, if_true]
    refine ⟨by simp [updateTreeData], ?_⟩
    simp only [updateTreeData, Option.getD_some]
    rw [filterMap_ok_length]
    · simp
    · intro r hr
      rw [List.mem_map] at hr
      rcases hr with ⟨p, hp, rfl⟩
      exact hpass p hp

/-- Witness for C3: one failing entry leaves the store untouched; two
passing entries commit both validated pairs. -/
theorem C3_whole_batch_validation_witness :
    ((BranchDetailsForm.handleNext "T1" 2 [("5", "3"), ("0", "3")] "" "" ""
        initialTreeData).storeAfter = initialTreeData ∧
      (BranchDetailsForm.handleNext "T1" 2 [("5", "3"), ("0", "3")] "" "" ""
        initialTreeData).nav = none) ∧
    (BranchDetailsForm.handleNext "T2" 2 [("5", "3"), ("2", "4")] "" "" ""
        initialTreeData).storeAfter.stemData.length = 2 :=
  ⟨(C3_whole_batch_validation "T1" 2 [("5", "3"), ("0", "3")] "" "" ""
      initialTreeData (by decide) (by decide)).1
      ⟨(1, ("0", "3")), by decide, by decide⟩,
   ((C3_whole_batch_validation "T2" 2 [("5", "3"), ("2", "4")] "" "" ""
      initialTreeData (by decide) (by decide)).2 (by decide)).2⟩

/-- Claim C4, counterexample. The claim says the first failing check halts
validation and exactly one indexed error is reported.  With two entries
that both lack a height, Step 2 reports two errors — one per failing
entry — because the `map` callback alerts and continues; validation is
not halted at the first failure. -/
theorem C4_counterexample_two_errors :
    (BranchDetailsForm.handleNext "T1" 2 [("", ""), ("", "")] "" "" ""
        initialTreeData).alerts =
      [("Error", "Please enter height for Primary Stem 1"),
       ("Error", "Please enter height for Primary Stem 2")] ∧
    (BranchDetailsForm.handleNext "T1" 2 [("", ""), ("", "")] "" "" ""
        initialTreeData).alerts.length ≠ 1 := by
  decide

/-- Claim C4, amended. Step 2 validates the entries in ascending index
order with the four checks height-present, diameter-present, height
parses `> 0`, diameter parses `> 0` in that order; within an entry the
first failing check determines that entry's single error, which names the
entry's 1-based index.  Validation does not halt at the first failing
entry: every failing entry reports exactly one such error, in ascending
entry order, and progression happens exactly when no entry fails. -/
theorem C4_amended_per_entry_errors :
    ∀ (tid : String) (br : Int) (stems : List (String × String))
      (sn sr sg : String) (store : TreeData),
      tid ≠ "" → br ≠ 0 →
      (BranchDetailsForm.handleNext tid br stems sn sr sg store).alerts =
        stems.enum.filterMap
          (fun p => (stemEntryFirstFailure p.1 p.2.1 p.2.2).map (fun m => ("Error", m))) ∧
      ((BranchDetailsForm.handleNext tid br stems sn sr sg store).nav ≠ none ↔
        ∀ p ∈ stems.enum, stemEntryFirstFailure p.1 p.2.1 p.2.2 = none) := by
  intro tid br stems sn sr sg store htid hbr
  have hguard : ¬ (tid = "" ∨ br = 0) := by simp [htid, hbr]
  have hfun : ∀ p : Nat × String × String,
      (match BranchDetailsForm.validateStem p.1 p.2 with
        | .error m => some (("Error", m) : String × String)
        | .ok _ => none) =
      (stemEntryFirstFailure p.1 p.2.1 p.2.2).map (fun m => ("Error", m)) := by
    intro p
    rw [← validateStem_error_eq p.1 p.2]
    cases BranchDetailsForm.validateStem p.1 p.2 <;> rfl
  have hallIff : ((stems.enum.map
      (fun p => BranchDetailsForm.validateStem p.1 p.2)).all BranchDetailsForm.stemOk = true) ↔
      (∀ p ∈ stems.enum, stemEntryFirstFailure p.1 p.2.1 p.2.2 = none) := by
    rw [List.all_eq_true]
    constructor
    · intro h p hp
      exact (stemOk_iff_noFailure p.1 p.2).mp (h _ (List.mem_map_of_mem _ hp))
    · intro h r hr
      rw [List.mem_map] at hr
      rcases hr with ⟨p, hp, rfl⟩
      exact (stemOk_iff_noFailure p.1 p.2).mpr (h p hp)
  have halerts : ((stems.enum.map (fun p => BranchDetailsForm.validateStem p.1 p.2)).filterMap
      (fun r =>
        match r with
        | .error m => some ("Error", m)
        | .ok _ => none)) =
      stems.enum.filterMap
        (fun p => (stemEntryFirstFailure p.1 p.2.1 p.2.2).map (fun m => ("Error", m))) := by
    rw [List.filterMap_map]
    congr 1
    funext p
    exact hfun p
  rcases Bool.eq_false_or_eq_true ((stems.enum.map
      (fun p => BranchDetailsForm.validateStem p.1 p.2)).all BranchDetailsForm.stemOk) with ht | hf
  · unfold BranchDetailsForm.handleNext
    rw [if_neg hguard]
    simp only [ht, if_true]
    constructor
    · exact halerts
    · exact iff_of_true (by simp) (hallIff.mp ht)
  · unfold BranchDetailsForm.handleNext
    rw [if_neg hguard]
    simp only [hf]
    constructor
    · exact halerts
    · exact iff_of_false (by simp) (fun hx => by rw [hallIff.mpr hx] at hf; cases hf)

/-- Witness for the amended C4 at a concrete input: entry 1 fails the
height-present check, entry 2 fails the diameter-positive check, and both
indexed errors are reported in order. -/
theorem C4_amended_per_entry_errors_witness :
    (BranchDetailsForm.handleNext "T1" 2 [("", ""), ("5", "0")] "" "" ""
        initialTreeData).alerts =
      [("", ""), ("5", "0")].enum.filterMap
        (fun p => (stemEntryFirstFailure p.1 p.2.1 p.2.2).map (fun m => ("Error", m))) ∧
    [("", ""), ("5", "0")].enum.filterMap
        (fun p => (stemEntryFirstFailure p.1 p.2.1 p.2.2).map (fun m => ("Error", m))) =
      [("Error", "Please enter height for Primary Stem 1"),
       ("Error", "Please enter a valid diameter for Primary Stem 2")] :=
  ⟨(C4_amended_per_entry_errors "T1" 2 [("", ""), ("5", "0")] "" "" ""
      initialTreeData (by decide) (by decide)).1,
   by decide⟩

/-- Claim C6. Step 3, either variant: with no image reference stored, the
save attempt is rejected with the no-image error and the external save
service is never invoked. -/
theorem C6_no_image_rejected :
    ∀ (loading0 : Bool) (store : TreeData)
      (sd : Option UploadScreenStore.StudentDetails) (email : String)
      (svc : Except String Unit) (inp : UploadScreenParam.Input),
      inp.image = none →
      ((UploadScreenStore.handleSave none loading0 store sd email svc).svcCalled = false ∧
        (UploadScreenStore.handleSave none loading0 store sd email svc).alerts =
          [("Error", "Please upload an image before saving.")]) ∧
      ((UploadScreenParam.handleSave inp).svcCalled = false ∧
        (UploadScreenParam.handleSave inp).alerts =
          [("Error", "Please upload an image before saving.")]) := by
  intro loading0 store sd email svc inp himg
  refine ⟨⟨rfl, rfl⟩, ?_⟩
  unfold UploadScreenParam.handleSave
  rw [himg]
  exact ⟨rfl, rfl⟩

/-- Witness for C6 at concrete inputs. -/
theorem C6_no_image_rejected_witness :
    (UploadScreenStore.handleSave none false initialTreeData none "" (.ok ())).svcCalled =
      false ∧
    (UploadScreenParam.handleSave
        { image := none
          loading0 := false
          treeId := none
          height := none
          branches := none
          branchDiameters := none
          mainBranchDiameter := none
          store := initialTreeData
          authEmail := none
          svc := .ok () }).alerts =
      [("Error", "Please upload an image before saving.")] :=
  ⟨(C6_no_image_rejected false initialTreeData none "" (.ok ())
      { image := none
        loading0 := false
        treeId := none
        height := none
        branches := none
        branchDiameters := none
        mainBranchDiameter := none
        store := initialTreeData
        authEmail := none
        svc := .ok () } rfl).1.1,
   (C6_no_image_rejected false initialTreeData none "" (.ok ())
      { image := none
        loading0 := false
        treeId := none
        height := none
        branches := none
        branchDiameters := none
        mainBranchDiameter := none
        store := initialTreeData
        authEmail := none
        svc := .ok () } rfl).2.2⟩

/-- Claim C7. The busy flag is false once the save handler completes, on
every path of both variants: in the store-based variant the `finally`
wraps the whole body, and in the parameter-based variant the only path
that skips the `try/finally` is the no-image guard, which is reachable
only while the flag is already false (the save button is disabled while
loading). -/
theorem C7_busy_flag_cleared :
    ∀ (image : Option String) (loading0 : Bool) (store : TreeData)
      (sd : Option UploadScreenStore.StudentDetails) (email : String)
      (svc : Except String Unit) (inp : UploadScreenParam.Input),
      (UploadScreenStore.handleSave image loading0 store sd email svc).loading1 = false ∧
      (inp.loading0 = false → (UploadScreenParam.handleSave inp).loading1 = false) := by
  intro image loading0 store sd email svc inp
  constructor
  · unfold UploadScreenStore.handleSave
    rcases image with _ | img
    · rfl
    · rcases sd with _ | sd
      · simp only []
        split <;> rfl
      · simp only []
        split <;> (try rfl) <;> cases svc <;> rfl
  · intro h0
    unfold UploadScreenParam.handleSave
    repeat' split
    all_goals first | rfl | exact h0

/-- Witness for C7 at concrete inputs. -/
theorem C7_busy_flag_cleared_witness :
    (UploadScreenStore.handleSave (some "file://a.jpg") false initialTreeData none ""
        (.error "boom")).loading1 = false ∧
    (UploadScreenParam.handleSave
        { image := none
          loading0 := false
          treeId := none
          height := none
          branches := none
          branchDiameters := none
          mainBranchDiameter := none
          store := initialTreeData
          authEmail := none
          svc := .ok () }).loading1 = false :=
  ⟨(C7_busy_flag_cleared (some "file://a.jpg") false initialTreeData none "" (.error "boom")
      { image := none
        loading0 := false
        treeId := none
        height := none
        branches := none
        branchDiameters := none
        mainBranchDiameter := none
        store := initialTreeData
        authEmail := none
        svc := .ok () }).1,
   (C7_busy_flag_cleared (some "file://a.jpg") false initialTreeData none "" (.error "boom")
      { image := none
        loading0 := false
        treeId := none
        height := none
        branches := none
        branchDiameters := none
        mainBranchDiameter := none
        store := initialTreeData
        authEmail := none
        svc := .ok () }).2 rfl⟩

/-- Claim C8. When the external save service is reached and fails with a
non-empty message, both variants show exactly that message, leave the
draft store, the stored image reference, and the rest of the state
untouched, and clear the busy flag — the failed attempt is atomic and can
be retried. -/
theorem C8_service_failure_atomic :
    ∀ (image : Option String) (loading0 : Bool) (store : TreeData)
      (sd : UploadScreenStore.StudentDetails) (email msg : String)
      (inp : UploadScreenParam.Input) (bds : List String),
      msg ≠ "" →
      (jsOptStrFalsy image = false →
        (UploadScreenStore.handleSave image loading0 store (some sd) email
            (.error msg)).alerts = [("Error", msg)] ∧
        (UploadScreenStore.handleSave image loading0 store (some sd) email
            (.error msg)).svcCalled = true ∧
        (UploadScreenStore.handleSave image loading0 store (some sd) email
            (.error msg)).store1 = store ∧
        (UploadScreenStore.handleSave image loading0 store (some sd) email
            (.error msg)).image1 = image ∧
        (UploadScreenStore.handleSave image loading0 store (some sd) email
            (.error msg)).loading1 = false) ∧
      (inp.svc = .error msg →
        jsOptStrFalsy inp.image = false →
        jsOptStrFalsy inp.height = false →
        (parseFloat (inp.height.getD "")).isNone = false →
        jsOptStrFalsy inp.mainBranchDiameter = false →
        (parseFloat (inp.mainBranchDiameter.getD "")).isNone = false →
        inp.branchDiameters = some bds →
        bds ≠ [] →
        bds.findIdx? (fun d => (parseFloat d).isNone) = none →
        (UploadScreenParam.handleSave inp).alerts = [("Error", msg)] ∧
        (UploadScreenParam.handleSave inp).svcCalled = true ∧
        (UploadScreenParam.handleSave inp).store1 = inp.store ∧
        (UploadScreenParam.handleSave inp).image1 = inp.image ∧
        (UploadScreenParam.handleSave inp).loading1 = false) := by
  intro image loading0 store sd email msg inp bds hmsg
  constructor
  · intro himg
    unfold UploadScreenStore.handleSave
    simp [himg, jsArrTruthy, jsIsArray, hmsg]
  · intro hsvc himg hh hhp hm hmp hbd hne hfind
    unfold UploadScreenParam.handleSave
    simp [himg, hh, hhp, hm, hmp, hbd, hfind, hsvc, jsArrTruthy, jsIsArray, hmsg, hne]

/-- Witness for C8: the spec's "network unavailable" scenario, in both
variants. -/
theorem C8_service_failure_atomic_witness :
    (UploadScreenStore.handleSave (some "file://img.jpg") false initialTreeData
        (some { studentName := "A", studentRollNo := "R", studentGroup := "G" })
        "u@x.y" (.error "network unavailable")).alerts =
      [("Error", "network unavailable")] ∧
    (UploadScreenParam.handleSave
        { image := some "file://img.jpg"
          loading0 := false
          treeId := some "T1"
          height := some "4"
          branches := some 1
          branchDiameters := some ["1.5"]
          mainBranchDiameter := some "2.5"
          store := initialTreeData
          authEmail := some "u@x.y"
          svc := .error "network unavailable" }).alerts =
      [("Error", "network unavailable")] :=
  ⟨((C8_service_failure_atomic (some "file://img.jpg") false initialTreeData
      { studentName := "A", studentRollNo := "R", studentGroup := "G" }
      "u@x.y" "network unavailable"
      { image := some "file://img.jpg"
        loading0 := false
        treeId := some "T1"
        height := some "4"
        branches := some 1
        branchDiameters := some ["1.5"]
        mainBranchDiameter := some "2.5"
        store := initialTreeData
        authEmail := some "u@x.y"
        svc := .error "network unavailable" }
      ["1.5"] (by decide)).1 (by decide)).1,
   ((C8_service_failure_atomic (some "file://img.jpg") false initialTreeData
      { studentName := "A", studentRollNo := "R", studentGroup := "G" }
      "u@x.y" "network unavailable"
      { image := some "file://img.jpg"
        loading0 := false
        treeId := some "T1"
        height := some "4"
        branches := some 1
        branchDiameters := some ["1.5"]
        mainBranchDiameter := some "2.5"
        store := initialTreeData
        authEmail := some "u@x.y"
        svc := .error "network unavailable" }
      ["1.5"] (by decide)).2 rfl (by decide) (by decide) (by decide) (by decide)
      (by decide) rfl (by decide) (by decide)).1⟩

/-- Claim C1, code bug. After a successful save, the parameter-based
variant does reset the draft store, but the store-based variant never
does: its success-alert OK handler reads the undeclared identifier
`context`, raising a `ReferenceError`, so `resetTreeData` is never called
and the draft store keeps its pre-save contents — contradicting both the
spec and the handler's own `Reset the tree data context` comment. -/
theorem C1_code_bug_store_not_reset :
    (UploadScreenStore.handleSave (some "file://img.jpg") false
        { treeId := "T100", numBranches := 1,
          stemData := [{ height := .fin 12 0, diameter := .fin 30 0 }],
          studentName := "A", studentRollNo := "R", studentGroup := "G",
          isAdmin := false }
        (some { studentName := "A", studentRollNo := "R", studentGroup := "G" })
        "u@x.y" (.ok ())).svcCalled = true ∧
    (UploadScreenStore.handleSave (some "file://img.jpg") false
        { treeId := "T100", numBranches := 1,
          stemData := [{ height := .fin 12 0, diameter := .fin 30 0 }],
          studentName := "A", studentRollNo := "R", studentGroup := "G",
          isAdmin := false }
        (some { studentName := "A", studentRollNo := "R", studentGroup := "G" })
        "u@x.y" (.ok ())).successShown = true ∧
    UploadScreenStore.okPress
        (UploadScreenStore.handleSave (some "file://img.jpg") false
          { treeId := "T100", numBranches := 1,
            stemData := [{ height := .fin 12 0, diameter := .fin 30 0 }],
            studentName := "A", studentRollNo := "R", studentGroup := "G",
            isAdmin := false }
          (some { studentName := "A", studentRollNo := "R", studentGroup := "G" })
          "u@x.y" (.ok ())).store1 =
      .error "ReferenceError: context is not defined" ∧
    UploadScreenStore.storeAfterOkPress
        (UploadScreenStore.handleSave (some "file://img.jpg") false
          { treeId := "T100", numBranches := 1,
            stemData := [{ height := .fin 12 0, diameter := .fin 30 0 }],
            studentName := "A", studentRollNo := "R", studentGroup := "G",
            isAdmin := false }
          (some { studentName := "A", studentRollNo := "R", studentGroup := "G" })
          "u@x.y" (.ok ())).store1 =
      { treeId := "T100", numBranches := 1,
        stemData := [{ height := .fin 12 0, diameter := .fin 30 0 }],
        studentName := "A", studentRollNo := "R", studentGroup := "G",
        isAdmin := false } ∧
    ({ treeId := "T100", numBranches := 1,
        stemData := [{ height := .fin 12 0, diameter := .fin 30 0 }],
        studentName := "A", studentRollNo := "R", studentGroup := "G",
        isAdmin := false } : TreeData) ≠ initialTreeData ∧
    (UploadScreenParam.handleSave
        { image := some "file://img.jpg"
          loading0 := false
          treeId := some "T100"
          height := some "4"
          branches := some 1
          branchDiameters := some ["1.5"]
          mainBranchDiameter := some "2.5"
          store := { initialTreeData with treeId := "X" }
          authEmail := some "u@x.y"
          svc := .ok () }).store1 = initialTreeData := by
  decide

/-- Claim C2, code bug. The store-based variant's guard
`!treeData.stemData || !Array.isArray(treeData.stemData)` does not reject
an *empty* `stemData` array — `![]` is `false` in JS — so with a valid
image and stored student details the external save service is invoked
with an empty measurement list, contradicting the spec's requirement
that `stemData` be a non-empty sequence (the parameter-based variant
does reject an empty array via its explicit `length === 0` check). -/
theorem C2_code_bug_empty_stemData_saved :
    (UploadScreenStore.handleSave (some "file://img.jpg") false
        { treeId := "T100", numBranches := 3, stemData := [],
          studentName := "", studentRollNo := "", studentGroup := "",
          isAdmin := false }
        (some { studentName := "A", studentRollNo := "R", studentGroup := "G" })
        "u@x.y" (.ok ())).svcCalled = true ∧
    (UploadScreenStore.handleSave (some "file://img.jpg") false
        { treeId := "T100", numBranches := 3, stemData := [],
          studentName := "", studentRollNo := "", studentGroup := "",
          isAdmin := false }
        (some { studentName := "A", studentRollNo := "R", studentGroup := "G" })
        "u@x.y" (.ok ())).saved =
      some { treeId := "T100", numBranches := 3, stemData := [],
             studentName := "A", studentRollNo := "R", studentGroup := "G",
             userEmail := "u@x.y" } ∧
    (UploadScreenStore.handleSave (some "file://img.jpg") false
        { treeId := "T100", numBranches := 3, stemData := [],
          studentName := "", studentRollNo := "", studentGroup := "",
          isAdmin := false }
        (some { studentName := "A", studentRollNo := "R", studentGroup := "G" })
        "u@x.y" (.ok ())).alerts =
      [("Success", "Tree data has been saved!")] ∧
    (UploadScreenParam.handleSave
        { image := some "file://img.jpg"
          loading0 := false
          treeId := some "T100"
          height := some "4"
          branches := some 3
          branchDiameters := some []
          mainBranchDiameter := some "2.5"
          store := initialTreeData
          authEmail := some "u@x.y"
          svc := .ok () }).svcCalled = false := by
  decide

/-- Claim C10. Every successful Step 2 navigation payload carries
`stemData` but no `height`, `mainBranchDiameter` or `branchDiameters`
field, so the parameter-based Step 3 variant destructures those as
`undefined` and always rejects before calling the save service: with an
image present it fails the height check, and without one it fails the
no-image guard; the service is unreachable through this path. -/
theorem C10_param_variant_service_unreachable :
    ∀ (tid : String) (br : Int) (stems : List (String × String))
      (sn sr sg : String) (store storeUp : TreeData)
      (pl : BranchDetailsForm.NavPayload) (image : Option String)
      (loading0 : Bool) (email : Option String) (svc : Except String Unit),
      (BranchDetailsForm.handleNext tid br stems sn sr sg store).nav = some pl →
      (UploadScreenParam.handleSave
          (UploadScreenParam.inputOfNav pl image loading0 storeUp email svc)).svcCalled =
        false ∧
      (UploadScreenParam.handleSave
          (UploadScreenParam.inputOfNav pl image loading0 storeUp email svc)).saved =
        none ∧
      (UploadScreenParam.handleSave
          (UploadScreenParam.inputOfNav pl image loading0 storeUp email svc)).alerts.length =
        1 ∧
      (jsOptStrFalsy image = false →
        (UploadScreenParam.handleSave
            (UploadScreenParam.inputOfNav pl image loading0 storeUp email svc)).alerts =
          [("Error", "Please enter a valid height")]) := by
  intro tid br stems sn sr sg store storeUp pl image loading0 email svc hnav
  rcases Bool.eq_false_or_eq_true (jsOptStrFalsy image) with htrue | hfalse
  · unfold UploadScreenParam.handleSave UploadScreenParam.inputOfNav
    simp only [htrue]
    simp
  · unfold UploadScreenParam.handleSave UploadScreenParam.inputOfNav
    simp only [hfalse]
    simp [jsOptStrFalsy]

/-- Witness for C10: a concrete Step 2 success payload fed to the
parameter-based save handler with an image present. -/
theorem C10_param_variant_service_unreachable_witness :
    (UploadScreenParam.handleSave
        (UploadScreenParam.inputOfNav
          { treeId := "T1", branches := 1,
            stemData := [{ height := .fin 25 1, diameter := .fin 3 0 }],
            studentName := "", studentRollNo := "", studentGroup := "" }
          (some "file://i") false initialTreeData none (.ok ()))).svcCalled = false ∧
    (UploadScreenParam.handleSave
        (UploadScreenParam.inputOfNav
          { treeId := "T1", branches := 1,
            stemData := [{ height := .fin 25 1, diameter := .fin 3 0 }],
            studentName := "", studentRollNo := "", studentGroup := "" }
          (some "file://i") false initialTreeData none (.ok ()))).alerts =
      [("Error", "Please enter a valid height")] :=
  ⟨(C10_param_variant_service_unreachable "T1" 1 [("2.5", "3")] "" "" ""
      initialTreeData initialTreeData
      { treeId := "T1", branches := 1,
        stemData := [{ height := .fin 25 1, diameter := .fin 3 0 }],
        studentName := "", studentRollNo := "", studentGroup := "" }
      (some "file://i") false none (.ok ()) (by decide)).1,
   (C10_param_variant_service_unreachable "T1" 1 [("2.5", "3")] "" "" ""
      initialTreeData initialTreeData
      { treeId := "T1", branches := 1,
        stemData := [{ height := .fin 25 1, diameter := .fin 3 0 }],
        studentName := "", studentRollNo := "", studentGroup := "" }
      (some "file://i") false none (.ok ()) (by decide)).2.2.2 (by decide)⟩
